import Mathlib

/-!
Verification of the Homeric agent core (`agent.py`): transcript store,
Wikipedia lookup tool, tool-call resolver loop and conversational agent.
External collaborators (the Wikipedia API and the Gemini chat session)
are modelled as explicit environment/oracle parameters; Python
exceptions are modelled with `Except`.
-/

namespace HomericAgent

/-- `Message.role` in the source is `Literal["user", "model"]`. -/
inductive Role where
  | user
  | model
deriving DecidableEq, Repr

/-- Pydantic model for chat messages: `{ role, content }`. -/
structure Message where
  role : Role
  content : String
deriving DecidableEq, Repr

/-- Constructing a `Message(role=role, content=content)` from a raw role
string: pydantic validates the `Literal["user", "model"]` annotation and
raises a `ValidationError` for any other role string. -/
def mkMessage (role : String) (content : String) : Except String Message :=
  if role = "user" then .ok { role := Role.user, content := content }
  else if role = "model" then .ok { role := Role.model, content := content }
  else .error "ValidationError: role must be one of: user, model"

/-- `ConversationHistory.add_message`: appends `Message(role=role, content=content)`
to `self.messages`; the pydantic validation error (invalid role) propagates. -/
def add_message (messages : List Message) (role : String) (content : String) :
    Except String (List Message) :=
  (mkMessage role content).map (fun m => messages ++ [m])

/-- Clearing the transcript store: `reset_conversation` replaces the history
with a fresh empty `ConversationHistory()`. -/
def clearHistory (_messages : List Message) : List Message := []

/-- One record of the Gemini exchange format `{"role": ..., "parts": [...]}`. -/
structure GeminiMsg where
  role : String
  parts : List String
deriving DecidableEq, Repr

def roleString : Role → String
  | Role.user => "user"
  | Role.model => "model"

/-- `ConversationHistory.get_gemini_history`. -/
def get_gemini_history (messages : List Message) : List GeminiMsg :=
  messages.map (fun msg => { role := roleString msg.role, parts := [msg.content] })

/-- Outcome of `wikipedia.search(query, results=3)`: a list of titles, or an
arbitrary raised exception (caught by the outer `except Exception`). -/
inductive SearchOutcome where
  | ok (results : List String)
  | err (e : String)
deriving DecidableEq, Repr

/-- Outcome of `wikipedia.summary(title, sentences=5, auto_suggest=False)`:
a summary text, a `DisambiguationError` carrying its options, a `PageError`,
or any other raised exception. -/
inductive SummaryOutcome where
  | ok (summary : String)
  | disambiguationError (options : List String)
  | pageError
  | err (e : String)
deriving DecidableEq, Repr

/-- The external Wikipedia API, as observed by `search_wikipedia`. -/
structure WikiEnv where
  searchResults : String → SearchOutcome
  summaryOf : String → SummaryOutcome

/-- `f"Wikipedia article on '{title}':\n\n{summary}"`. -/
def articleText (title : String) (summary : String) : String :=
  "Wikipedia article on \x27" ++ title ++ "\x27:\n\n" ++ summary

/-- `f"No results found for '{query}' on Wikipedia."`. -/
def noResultsText (query : String) : String :=
  "No results found for \x27" ++ query ++ "\x27 on Wikipedia."

/-- `f"Found multiple articles. Top results: {', '.join(search_results[:3])}"`. -/
def foundMultipleText (titles : List String) : String :=
  "Found multiple articles. Top results: " ++ String.intercalate ", " titles

/-- `f"Could not retrieve page for '{query}'."`. -/
def couldNotRetrieveText (query : String) : String :=
  "Could not retrieve page for \x27" ++ query ++ "\x27."

/-- `f"Error searching Wikipedia: {str(e)}"`. -/
def errorSearchingText (e : String) : String :=
  "Error searching Wikipedia: " ++ e

/-- `HomericAgent.search_wikipedia` (src/agent.py lines 106-132), branch for
branch: search, empty-result message, summary of the top result, one
disambiguation retry with a bare-except fallback, page-error message, and the
outer catch-all. -/
def search_wikipedia (env : WikiEnv) (query : String) : String :=
  match env.searchResults query with
  | SearchOutcome.err e => errorSearchingText e
  | SearchOutcome.ok search_results =>
    match search_results with
    | [] => noResultsText query
    | top :: rest =>
      match env.summaryOf top with
      | SummaryOutcome.ok summary => articleText top summary
      | SummaryOutcome.disambiguationError options =>
        -- `e.options[0]` on an empty options list raises IndexError,
        -- caught by the bare `except:` like any failed retry.
        match options with
        | [] => foundMultipleText ((top :: rest).take 3)
        | opt0 :: _ =>
          match env.summaryOf opt0 with
          | SummaryOutcome.ok summary => articleText opt0 summary
          | _ => foundMultipleText ((top :: rest).take 3)
      | SummaryOutcome.pageError => couldNotRetrieveText query
      | SummaryOutcome.err e => errorSearchingText e

/-- `function_args.get(key, default)` over the argument mapping. -/
def dictGet (args : List (String × String)) (key : String) (default : String) : String :=
  match args.find? (fun kv => kv.1 = key) with
  | some kv => kv.2
  | none => default

/-- `HomericAgent.process_tool_call` (src/agent.py lines 134-140). -/
def process_tool_call (env : WikiEnv) (function_name : String)
    (function_args : List (String × String)) : String :=
  if function_name = "search_wikipedia" then
    search_wikipedia env (dictGet function_args "query" "")
  else
    "Unknown function: " ++ function_name

/-- A structured tool-call request inside a response part. -/
structure FunctionCall where
  name : String
  args : List (String × String)
deriving DecidableEq, Repr

/-- One content part of a model response. `function_call = none` models a part
without the attribute; a present call with empty name is falsy in the source
check `not first_part.function_call.name`. `text = none` models a part without
a text attribute. -/
structure Part where
  function_call : Option FunctionCall
  text : Option String
deriving DecidableEq, Repr

/-- A model response: its ordered content parts
(`response.candidates[0].content.parts`) and the `.text` convenience accessor,
`none` when that accessor raises `ValueError`. -/
structure ModelResponse where
  parts : List Part
  textAttr : Option String
deriving DecidableEq, Repr

/-- Result of one `chat_session.send_message(...)` call: a response, or a
raised session error. -/
inductive SendResult where
  | ok (response : ModelResponse)
  | fail (e : String)
deriving DecidableEq, Repr

/-- What is submitted to the session: the user text, or a
`FunctionResponse(name=..., response={"result": ...})` payload. -/
inductive SendPayload where
  | userText (s : String)
  | functionResponse (name : String) (result : String)
deriving DecidableEq, Repr

/-- The persistent chat session: the history it was seeded with at
`start_chat`, and everything sent into it since. -/
structure ChatSession where
  seed_history : List GeminiMsg
  sent : List SendPayload
deriving DecidableEq, Repr

/-- The external model: given the session seed history and all payloads sent
so far (last one being the payload just submitted), it answers or fails. -/
def Oracle : Type := List GeminiMsg → List SendPayload → SendResult

/-- `self.model.start_chat(history=...)`. -/
def start_chat (history : List GeminiMsg) : ChatSession :=
  { seed_history := history, sent := [] }

/-- `chat_session.send_message(payload)`: the payload enters the session and
the oracle answers (or raises). -/
def send_message (oracle : Oracle) (s : ChatSession) (p : SendPayload) :
    SendResult × ChatSession :=
  let s2 : ChatSession := { s with sent := s.sent ++ [p] }
  (oracle s2.seed_history s2.sent, s2)

/-- `max_iterations = 5` in `HomericAgent.chat`. -/
def max_iterations : Nat := 5

/-- The tool-call resolver loop of `HomericAgent.chat` (src/agent.py lines
155-190). `fuel` embeds the guard of `while iteration < max_iterations`:
the loop is entered with `fuel = max_iterations - iteration`, so `fuel = 0`
is exactly `iteration = max_iterations`. Returns the held response, the
session, and the final `iteration` counter; a session error from
`send_message` propagates as `Except.error`. -/
def chatLoop (env : WikiEnv) (oracle : Oracle) (s : ChatSession)
    (response : ModelResponse) (iteration : Nat) (fuel : Nat) :
    Except (String × ChatSession) (ModelResponse × ChatSession × Nat) :=
  match fuel with
  | 0 => .ok (response, s, iteration)
  | fuel2 + 1 =>
    match response.parts with
    | [] => .ok (response, s, iteration)
    | first_part :: _ =>
      match first_part.function_call with
      | none => .ok (response, s, iteration)
      | some function_call =>
        if function_call.name = "" then .ok (response, s, iteration)
        else
          let function_result := process_tool_call env function_call.name function_call.args
          match send_message oracle s
              (SendPayload.functionResponse function_call.name function_result) with
          | (SendResult.fail e, s2) => .error (e, s2)
          | (SendResult.ok response2, s2) =>
            chatLoop env oracle s2 response2 (iteration + 1) fuel2

/-- Agent state: `self.conversation.messages` and `self.chat_session`. -/
structure AgentState where
  conversation : List Message
  chat_session : Option ChatSession
deriving DecidableEq, Repr

/-- The exchange phase of `HomericAgent.chat`: lazily create the session
seeded with the current Gemini-format history, send the user message, then
run the resolver loop starting at `iteration = 0`. -/
def chatExchange (env : WikiEnv) (oracle : Oracle) (st : AgentState)
    (user_message : String) :
    Except (String × ChatSession) (ModelResponse × ChatSession × Nat) :=
  let session :=
    match st.chat_session with
    | some s => s
    | none => start_chat (get_gemini_history st.conversation)
  match send_message oracle session (SendPayload.userText user_message) with
  | (SendResult.fail e, s1) => .error (e, s1)
  | (SendResult.ok response, s1) => chatLoop env oracle s1 response 0 max_iterations

/-- Body of the fallback loop `if hasattr(part, 'text') and part.text:
final_text += part.text`. -/
def collectText (acc : String) (part : Part) : String :=
  match part.text with
  | some t => if t = "" then acc else acc ++ t
  | none => acc

/-- Final text extraction in `HomericAgent.chat` (src/agent.py lines 192-200):
`response.text` when it does not raise, otherwise the concatenation of the
truthy `part.text` fields. -/
def extract_final_text (response : ModelResponse) : String :=
  match response.textAttr with
  | some t => t
  | none => response.parts.foldl collectText ""

/-- `HomericAgent.chat` (src/agent.py lines 142-207): session setup, initial
send, resolver loop, text extraction, then the two `add_message` appends.
A raised exception is `Except.error` paired with the post-failure state. -/
def chat (env : WikiEnv) (oracle : Oracle) (st : AgentState) (user_message : String) :
    Except String String × AgentState :=
  match chatExchange env oracle st user_message with
  | .error (e, s) => (.error e, { st with chat_session := some s })
  | .ok (response, s, _iteration) =>
    let final_text := extract_final_text response
    match add_message st.conversation "user" user_message with
    | .error e => (.error e, { st with chat_session := some s })
    | .ok conv1 =>
      match add_message conv1 "model" final_text with
      | .error e => (.error e, { conversation := conv1, chat_session := some s })
      | .ok conv2 => (.ok final_text, { conversation := conv2, chat_session := some s })

/-- `HomericAgent.reset_conversation` (src/agent.py lines 209-212). -/
def reset_conversation (_st : AgentState) : AgentState :=
  { conversation := [], chat_session := none }

/-- A fresh agent right after `__init__`. -/
def freshAgent : AgentState :=
  { conversation := [], chat_session := none }

/-- Iterate `chat` over a list of user messages, stopping at the first
raised exception. -/
def runChats (env : WikiEnv) (oracle : Oracle) :
    AgentState → List String → Option AgentState
  | st, [] => some st
  | st, m :: ms =>
    match chat env oracle st m with
    | (.ok _, st2) => runChats env oracle st2 ms
    | (.error _, _) => none

/-- The transcript alternates user, model, user, model, ... with full turns. -/
def alternatingFromUser : List Message → Bool
  | [] => true
  | [_] => false
  | u :: m :: rest =>
    decide (u.role = Role.user) && decide (m.role = Role.model) && alternatingFromUser rest

/-- The session held in the result of an exchange, in either outcome. -/
def sessionOfResult :
    Except (String × ChatSession) (ModelResponse × ChatSession × Nat) → ChatSession
  | .error (_, s) => s
  | .ok (_, s, _) => s

/-! Concrete fixtures used by the witnesses below. -/

def env0 : WikiEnv :=
  { searchResults := fun _ => SearchOutcome.ok ["Achilles"],
    summaryOf := fun _ => SummaryOutcome.ok "S" }

def textResponse : ModelResponse :=
  { parts := [{ function_call := none, text := some "T" }], textAttr := some "T" }

def oracleText : Oracle := fun _ _ => SendResult.ok textResponse

def oracleFailing : Oracle := fun _ _ => SendResult.fail "boom"

def emptyResponse : ModelResponse := { parts := [], textAttr := none }

def oracleEmpty : Oracle := fun _ _ => SendResult.ok emptyResponse

def toolCallResponse : ModelResponse :=
  { parts := [{ function_call := some { name := "search_wikipedia", args := [("query", "Zeus")] },
                text := none }],
    textAttr := none }

def oracleTool : Oracle := fun _ _ => SendResult.ok toolCallResponse

def toolTurnSession : ChatSession :=
  { seed_history := [],
    sent := SendPayload.userText "hi" ::
      List.replicate 5
        (SendPayload.functionResponse "search_wikipedia" (articleText "Achilles" "S")) }

def env4 : WikiEnv :=
  { searchResults := fun _ => SearchOutcome.ok ["Amb", "B"],
    summaryOf := fun t =>
      if t = "Amb" then SummaryOutcome.disambiguationError ["Opt"]
      else if t = "Opt" then SummaryOutcome.ok "S1"
      else SummaryOutcome.pageError }

/-! Helper lemmas. -/

theorem add_message_user (c : List Message) (m : String) :
    add_message c "user" m = .ok (c ++ [{ role := Role.user, content := m }]) := rfl

theorem add_message_model (c : List Message) (m : String) :
    add_message c "model" m = .ok (c ++ [{ role := Role.model, content := m }]) := rfl

theorem chat_ok_conv (env : WikiEnv) (oracle : Oracle) (st : AgentState)
    (msg t : String) (st' : AgentState)
    (h : chat env oracle st msg = (.ok t, st')) :
    st'.conversation = st.conversation ++
      [{ role := Role.user, content := msg }, { role := Role.model, content := t }] := by
  unfold chat at h
  cases hex : chatExchange env oracle st msg with
  | error es =>
    obtain ⟨e, s⟩ := es
    rw [hex] at h
    simp at h
  | ok rsn =>
    obtain ⟨r, s, n⟩ := rsn
    rw [hex] at h
    simp only [add_message_user, add_message_model] at h
    obtain ⟨h1, h2⟩ := Prod.mk.injEq .. ▸ h
    cases h1
    cases h2
    simp

theorem chatLoop_ok_le (env : WikiEnv) (oracle : Oracle) :
    ∀ (fuel : Nat) (s : ChatSession) (r : ModelResponse) (it : Nat)
      (r' : ModelResponse) (s' : ChatSession) (n : Nat),
      chatLoop env oracle s r it fuel = .ok (r', s', n) → n ≤ it + fuel := by
  intro fuel
  induction fuel with
  | zero =>
    intro s r it r' s' n h
    unfold chatLoop at h
    obtain ⟨-, -, h3⟩ := Prod.mk.injEq .. ▸ Except.ok.injEq .. ▸ h
    omega
  | succ fuel2 ih =>
    intro s r it r' s' n h
    unfold chatLoop at h
    split at h
    · simp only [Except.ok.injEq, Prod.mk.injEq] at h
      omega
    · split at h
      · simp only [Except.ok.injEq, Prod.mk.injEq] at h
        omega
      · split at h
        · simp only [Except.ok.injEq, Prod.mk.injEq] at h
          omega
        · simp only [send_message] at h
          split at h
          · exact absurd h (by simp)
          · have := ih _ _ (it + 1) r' s' n h
            omega

theorem chatLoop_seed (env : WikiEnv) (oracle : Oracle) :
    ∀ (fuel : Nat) (s : ChatSession) (r : ModelResponse) (it : Nat),
      (sessionOfResult (chatLoop env oracle s r it fuel)).seed_history = s.seed_history := by
  intro fuel
  induction fuel with
  | zero =>
    intro s r it
    rfl
  | succ fuel2 ih =>
    intro s r it
    unfold chatLoop
    split
    · rfl
    · split
      · rfl
      · split
        · rfl
        · simp only [send_message]
          split
          · next e s2 heq =>
            have hs2 := (Prod.mk.injEq .. ▸ heq).2
            subst hs2
            rfl
          · next response2 s2 heq =>
            have hs2 := (Prod.mk.injEq .. ▸ heq).2
            subst hs2
            exact ih _ _ (it + 1)

theorem chat_session_installed (env : WikiEnv) (oracle : Oracle) (st : AgentState)
    (msg : String) :
    (chat env oracle st msg).2.chat_session =
      some (sessionOfResult (chatExchange env oracle st msg)) := by
  unfold chat
  cases hex : chatExchange env oracle st msg with
  | error es =>
    obtain ⟨e, s⟩ := es
    rfl
  | ok rsn =>
    obtain ⟨r, s, n⟩ := rsn
    simp only [add_message_user, add_message_model]
    rfl

theorem alternating_append :
    ∀ (c : List Message) (a b : String),
      alternatingFromUser (c ++
          [{ role := Role.user, content := a }, { role := Role.model, content := b }]) =
        alternatingFromUser c
  | [], a, b => by simp [alternatingFromUser]
  | [x], a, b => by simp [alternatingFromUser]
  | x :: y :: c, a, b => by
    simp only [List.cons_append, List.append_eq, alternatingFromUser, alternating_append c a b]

theorem foldl_collectText_no_text :
    ∀ (parts : List Part) (acc : String),
      (∀ p ∈ parts, p.text.getD "" = "") →
      parts.foldl collectText acc = acc := by
  intro parts
  induction parts with
  | nil => intro acc _; rfl
  | cons p ps ih =>
    intro acc h
    have hp : p.text.getD "" = "" := h p (by simp)
    have hrest : ∀ q ∈ ps, q.text.getD "" = "" := fun q hq => h q (by simp [hq])
    cases ht : p.text with
    | none =>
      simp only [List.foldl_cons, collectText, ht]
      exact ih acc hrest
    | some t =>
      rw [ht] at hp
      simp only [Option.getD_some] at hp
      simp only [List.foldl_cons, collectText, ht, hp, if_pos rfl]
      exact ih acc hrest

theorem extract_no_text (r : ModelResponse) (htext : r.textAttr = none)
    (hparts : ∀ p ∈ r.parts, p.text.getD "" = "") :
    extract_final_text r = "" := by
  unfold extract_final_text
  rw [htext]
  exact foldl_collectText_no_text r.parts "" hparts

theorem runChats_conv (env : WikiEnv) (oracle : Oracle) :
    ∀ (msgs : List String) (st st' : AgentState),
      runChats env oracle st msgs = some st' →
      st'.conversation.length = st.conversation.length + 2 * msgs.length ∧
        (alternatingFromUser st.conversation = true →
          alternatingFromUser st'.conversation = true) := by
  intro msgs
  induction msgs with
  | nil =>
    intro st st' h
    simp only [runChats, Option.some.injEq] at h
    subst h
    simp
  | cons m ms ih =>
    intro st st' h
    simp only [runChats] at h
    cases hc : chat env oracle st m with
    | mk res st2 =>
      rw [hc] at h
      cases res with
      | error e => simp at h
      | ok t =>
        have hconv := chat_ok_conv env oracle st m t st2 hc
        obtain ⟨hlen, halt⟩ := ih st2 st' h
        constructor
        · rw [hlen, hconv]
          simp
          omega
        · intro hst
          apply halt
          rw [hconv, alternating_append]
          exact hst

/-! Claim theorems. -/

/-- C1: for every sequence of N successful `chat` calls on an agent starting
from a fresh or reset state (empty transcript), the transcript store contains
exactly 2N messages, in strictly alternating role order starting with a user
message — each turn appends one user message then one model message. -/
theorem chat_transcript_two_per_turn (env : WikiEnv) (oracle : Oracle)
    (st : AgentState) (msgs : List String) (st' : AgentState)
    (h0 : st.conversation = [])
    (h : runChats env oracle st msgs = some st') :
    st'.conversation.length = 2 * msgs.length ∧
      alternatingFromUser st'.conversation = true := by
  obtain ⟨hlen, halt⟩ := runChats_conv env oracle msgs st st' h
  rw [h0] at hlen halt
  exact ⟨by simpa using hlen, halt rfl⟩

theorem chat_transcript_two_per_turn_witness :
    (AgentState.mk
        [{ role := Role.user, content := "hi" }, { role := Role.model, content := "T" }]
        (some { seed_history := [], sent := [SendPayload.userText "hi"] })).conversation.length
        = 2 * (["hi"] : List String).length ∧
      alternatingFromUser
        (AgentState.mk
          [{ role := Role.user, content := "hi" }, { role := Role.model, content := "T" }]
          (some { seed_history := [], sent := [SendPayload.userText "hi"] })).conversation
        = true :=
  chat_transcript_two_per_turn env0 oracleText freshAgent ["hi"]
    (AgentState.mk
      [{ role := Role.user, content := "hi" }, { role := Role.model, content := "T" }]
      (some { seed_history := [], sent := [SendPayload.userText "hi"] })) rfl rfl

/-- C2: for every input query and every behaviour of the external providers,
`search_wikipedia` terminates in a returned string of one of the five
documented shapes — error text, no-results text, article text, the
multiple-articles fallback, or the could-not-retrieve text — and hence never
raises. -/
theorem search_wikipedia_always_returns (env : WikiEnv) (query : String) :
    (∃ e, search_wikipedia env query = errorSearchingText e) ∨
      search_wikipedia env query = noResultsText query ∨
      (∃ title summary, search_wikipedia env query = articleText title summary) ∨
      (∃ titles, search_wikipedia env query = foundMultipleText titles) ∨
      search_wikipedia env query = couldNotRetrieveText query := by
  unfold search_wikipedia
  split
  · next e _ => exact Or.inl ⟨e, rfl⟩
  · next search_results _ =>
    split
    · exact Or.inr (Or.inl rfl)
    · next top rest _ =>
      split
      · next summary _ => exact Or.inr (Or.inr (Or.inl ⟨top, summary, rfl⟩))
      · next options _ =>
        split
        · exact Or.inr (Or.inr (Or.inr (Or.inl ⟨_, rfl⟩)))
        · next opt0 os _ =>
          split
          · next s2 _ => exact Or.inr (Or.inr (Or.inl ⟨opt0, s2, rfl⟩))
          · exact Or.inr (Or.inr (Or.inr (Or.inl ⟨_, rfl⟩)))
      · exact Or.inr (Or.inr (Or.inr (Or.inr rfl)))
      · next e _ => exact Or.inl ⟨e, rfl⟩

/-- C3: the tool-call resolver loop executes at most 5 tool invocations per
single `chat` call — `n` counts exactly the executed tool invocations — for
every oracle, including one that requests a tool call on every response; and
with the iteration counter at the cap the loop exits at once, the currently
held response being treated as final. -/
theorem tool_call_cap (env : WikiEnv) (oracle : Oracle) (st : AgentState)
    (user_message : String) (r : ModelResponse) (s : ChatSession) (n : Nat)
    (h : chatExchange env oracle st user_message = .ok (r, s, n)) :
    n ≤ 5 ∧ chatLoop env oracle s r max_iterations 0 = .ok (r, s, max_iterations) := by
  refine ⟨?_, rfl⟩
  unfold chatExchange at h
  cases hcs : st.chat_session with
  | some s0 =>
    rw [hcs] at h
    simp only [send_message] at h
    split at h
    · exact absurd h (by simp)
    · have := chatLoop_ok_le env oracle max_iterations _ _ 0 r s n h
      simp only [max_iterations] at this
      omega
  | none =>
    rw [hcs] at h
    simp only [send_message] at h
    split at h
    · exact absurd h (by simp)
    · have := chatLoop_ok_le env oracle max_iterations _ _ 0 r s n h
      simp only [max_iterations] at this
      omega

theorem tool_call_cap_witness :
    (5 : Nat) ≤ 5 ∧
      chatLoop env0 oracleTool toolTurnSession toolCallResponse max_iterations 0 =
        .ok (toolCallResponse, toolTurnSession, max_iterations) :=
  tool_call_cap env0 oracleTool freshAgent "hi" toolCallResponse toolTurnSession 5 (by rfl)

/-- C4: when the summary of the top search candidate raises a disambiguation
condition, the lookup tool retries exactly once with the first disambiguation
option; if that secondary fetch also fails (or there is no option), it falls
back to the plain-text list of top candidate titles — in no case does the
disambiguation failure propagate. -/
theorem disambiguation_retry (env : WikiEnv) (query top : String)
    (rest options : List String)
    (hs : env.searchResults query = SearchOutcome.ok (top :: rest))
    (hd : env.summaryOf top = SummaryOutcome.disambiguationError options) :
    (options = [] →
      search_wikipedia env query = foundMultipleText ((top :: rest).take 3)) ∧
    (∀ opt0 os summary, options = opt0 :: os →
      env.summaryOf opt0 = SummaryOutcome.ok summary →
      search_wikipedia env query = articleText opt0 summary) ∧
    (∀ opt0 os, options = opt0 :: os →
      (∀ summary, env.summaryOf opt0 ≠ SummaryOutcome.ok summary) →
      search_wikipedia env query = foundMultipleText ((top :: rest).take 3)) := by
  unfold search_wikipedia
  simp only [hs, hd]
  refine ⟨?_, ?_, ?_⟩
  · intro ho
    simp only [ho]
  · intro opt0 os summary ho hsum
    simp only [ho, hsum]
  · intro opt0 os ho hne
    simp only [ho]

theorem disambiguation_retry_witness :
    search_wikipedia env4 "q" = articleText "Opt" "S1" :=
  (disambiguation_retry env4 "q" "Amb" ["B"] ["Opt"] rfl rfl).2.1 "Opt" [] "S1" rfl rfl

/-- C5: if the model-session exchange fails at any point of a `chat` call —
on the initial send or on any tool-result submission inside the loop — the
exception propagates to the caller unmodified and the transcript store is
left unchanged: no user or model message is appended for that failed turn. -/
theorem session_error_preserves_transcript (env : WikiEnv) (oracle : Oracle)
    (st : AgentState) (user_message : String) (e : String) (s : ChatSession)
    (hex : chatExchange env oracle st user_message = .error (e, s)) :
    chat env oracle st user_message =
      (.error e, { conversation := st.conversation, chat_session := some s }) := by
  unfold chat
  rw [hex]

theorem session_error_preserves_transcript_witness :
    chat env0 oracleFailing freshAgent "hi" =
      (.error "boom",
        { conversation := [],
          chat_session := some { seed_history := [], sent := [SendPayload.userText "hi"] } }) :=
  session_error_preserves_transcript env0 oracleFailing freshAgent "hi" "boom"
    { seed_history := [], sent := [SendPayload.userText "hi"] } rfl

/-- C6 counterexample: `add_message` does not succeed for every role string —
pydantic validates the `Literal["user", "model"]` role annotation, so the
role string "assistant" makes the append raise instead of succeeding. -/
theorem add_message_rejects_arbitrary_role :
    add_message [] "assistant" "hello" =
      .error "ValidationError: role must be one of: user, model" := rfl

/-- C6 (amended): for the two valid roles "user" and "model" and every content
string, the transcript store append succeeds, its only effect being the
internal state change appending the message, and clear always succeeds. -/
theorem add_message_valid_roles_clear_succeed (messages : List Message) (content : String) :
    add_message messages "user" content =
        .ok (messages ++ [{ role := Role.user, content := content }]) ∧
      add_message messages "model" content =
        .ok (messages ++ [{ role := Role.model, content := content }]) ∧
      clearHistory messages = [] :=
  ⟨rfl, rfl, rfl⟩

/-- C7: for every unrecognized tool name (anything other than
"search_wikipedia") and any argument mapping, `process_tool_call` returns
exactly the string "Unknown function: " followed by the name, and does not
raise. -/
theorem unknown_tool_name_result (env : WikiEnv) (n : String)
    (args : List (String × String)) (h : n ≠ "search_wikipedia") :
    process_tool_call env n args = "Unknown function: " ++ n := by
  unfold process_tool_call
  rw [if_neg h]

theorem unknown_tool_name_result_witness :
    process_tool_call env0 "foo" [] = "Unknown function: " ++ "foo" :=
  unknown_tool_name_result env0 "foo" [] (by decide)

/-- C8: when `process_tool_call` is invoked with the known tool name
"search_wikipedia" and an argument mapping lacking the key "query", the
lookup tool is invoked with the empty string as its query argument. -/
theorem missing_query_defaults_empty (env : WikiEnv) (args : List (String × String))
    (h : args.find? (fun kv => kv.1 = "query") = none) :
    process_tool_call env "search_wikipedia" args = search_wikipedia env "" := by
  unfold process_tool_call dictGet
  rw [if_pos rfl, h]

theorem missing_query_defaults_empty_witness :
    process_tool_call env0 "search_wikipedia" [] = search_wikipedia env0 "" :=
  missing_query_defaults_empty env0 [] rfl

/-- C9: after `reset_conversation` the transcript store is empty and the
persistent session handle is discarded, so the next `chat` call establishes a
brand-new session whose seed history is empty — no prior-session history is
resubmitted — and installs exactly that new session. -/
theorem reset_discards_state (env : WikiEnv) (oracle : Oracle) (st : AgentState)
    (user_message : String) :
    (reset_conversation st).conversation = [] ∧
      (reset_conversation st).chat_session = none ∧
      (sessionOfResult
          (chatExchange env oracle (reset_conversation st) user_message)).seed_history = [] ∧
      (chat env oracle (reset_conversation st) user_message).2.chat_session =
        some (sessionOfResult (chatExchange env oracle (reset_conversation st) user_message)) := by
  refine ⟨rfl, rfl, ?_, chat_session_installed env oracle _ user_message⟩
  unfold chatExchange
  simp only [reset_conversation, get_gemini_history, start_chat, List.map_nil, send_message]
  split
  · next e s2 heq =>
    have hs2 := (Prod.mk.injEq .. ▸ heq).2
    subst hs2
    rfl
  · next response2 s2 heq =>
    have hs2 := (Prod.mk.injEq .. ▸ heq).2
    subst hs2
    exact chatLoop_seed env oracle max_iterations _ _ 0

/-- C10: when the final response holds no text at all — direct text
extraction fails and no part carries non-empty text — `chat` still returns
the empty string and still appends both the user message and a model message
with empty content to the transcript store, recording the empty-text turn
like any other turn. -/
theorem empty_text_turn_recorded (env : WikiEnv) (oracle : Oracle) (st : AgentState)
    (user_message : String) (r : ModelResponse) (s : ChatSession) (n : Nat)
    (hex : chatExchange env oracle st user_message = .ok (r, s, n))
    (htext : r.textAttr = none)
    (hparts : ∀ p ∈ r.parts, p.text.getD "" = "") :
    chat env oracle st user_message =
      (.ok "",
        { conversation := st.conversation ++
            [{ role := Role.user, content := user_message },
             { role := Role.model, content := "" }],
          chat_session := some s }) := by
  have hempty := extract_no_text r htext hparts
  unfold chat
  rw [hex]
  simp only [hempty, add_message_user, add_message_model, List.append_assoc,
    List.cons_append, List.nil_append]

theorem empty_text_turn_recorded_witness :
    chat env0 oracleEmpty freshAgent "hi" =
      (.ok "",
        { conversation := [{ role := Role.user, content := "hi" },
                           { role := Role.model, content := "" }],
          chat_session := some { seed_history := [], sent := [SendPayload.userText "hi"] } }) :=
  empty_text_turn_recorded env0 oracleEmpty freshAgent "hi" emptyResponse
    { seed_history := [], sent := [SendPayload.userText "hi"] } 0 rfl rfl
    (by intro p hp; simp [emptyResponse] at hp)

end HomericAgent
